import Mathlib

set_option maxRecDepth 100000

/-!
Verification of the FISULAB cleft lip/palate triage API (`src/main.py`).

The development shallowly embeds the Python source: pure helpers become Lean
functions over `String`/`List Char`; the two calls to the external OpenAI
collaborator are modelled by an explicit outcome parameter (`PyRes RespObj`:
either the call returns a response object or it raises), and Python's
`json.loads` by an oracle `String → Option JVal` returning an arbitrary JSON
value on success — the parsed payload is not shape-checked by the source, so
the endpoint's dict subscripts can raise.  Machine integers are
`Int` (Python ints are unbounded).  Theorems at the end settle the claims
about the segmenter, the flag extractor, the rule engine and the endpoint.
-/

/-! ## Generic string helpers mirroring the Python primitives used in main.py -/

/-- Decides whether the first list is a prefix of the second
(the inner loop of Python's substring test). -/
def listPrefixOf : List Char → List Char → Bool
  | [], _ => true
  | _ :: _, [] => false
  | a :: as, b :: bs => (a == b) && listPrefixOf as bs

/-- Decides whether `needle` occurs contiguously inside `hay`:
Python's `needle in hay` on strings. -/
def listSubstr (needle : List Char) : List Char → Bool
  | [] => listPrefixOf needle []
  | c :: rest =>
      listPrefixOf needle (c :: rest) || listSubstr needle rest

/-- Python `x in s` for strings `x`, `s`. -/
def strIn (needle hay : String) : Bool :=
  listSubstr needle.data hay.data

/-- Python `any(x in s for x in ks)` as used for every symptom flag. -/
def containsAny (s : String) (ks : List String) : Bool :=
  ks.any fun k => strIn k s

/-- Python `str.lower` restricted to ASCII letters; in `main.py` it is only
ever applied to the ASCII output of `to_ascii`, where this is exact. -/
def pyLowerChar (c : Char) : Char :=
  if 'A' ≤ c ∧ c ≤ 'Z' then Char.ofNat (c.toNat + 32) else c

/-- Python `str.lower` on ASCII text (character-wise). -/
def pyLower (s : String) : String :=
  ⟨s.data.map pyLowerChar⟩

/-- The characters Python's `str.strip()` removes by default. -/
def isPyWs (c : Char) : Bool :=
  c == ' ' || c == '\t' || c == '\n' || c == '\r' ||
  c == Char.ofNat 11 || c == Char.ofNat 12

/-- Python `str.strip()`: drop leading and trailing whitespace. -/
def pyStripList (l : List Char) : List Char :=
  ((l.dropWhile isPyWs).reverse.dropWhile isPyWs).reverse

/-- Python `str.strip()` on strings. -/
def pyStrip (s : String) : String :=
  ⟨pyStripList s.data⟩

/-- Fuel-indexed worker for Python `str.replace` (left-to-right,
non-overlapping).  `fuel` bounds the number of characters examined; callers
pass the length of the scanned list, which suffices for nonempty patterns. -/
def pyReplaceAux : Nat → List Char → List Char → List Char → List Char
  | 0, s, _, _ => s
  | _ + 1, [], _, _ => []
  | fuel + 1, c :: rest, pat, rep =>
      if listPrefixOf pat (c :: rest) then
        rep ++ pyReplaceAux fuel ((c :: rest).drop pat.length) pat rep
      else
        c :: pyReplaceAux fuel rest pat rep

/-- Python `s.replace(pat, rep)` for a nonempty `pat` (the only patterns the
source uses are the markdown fences, both nonempty). -/
def pyReplace (s pat rep : String) : String :=
  if pat.data.isEmpty then s
  else ⟨pyReplaceAux s.data.length s.data pat.data rep.data⟩

/-! ## to_ascii (`src/main.py` lines 14–18) -/

/-- Fragment of Python `unicodedata.normalize("NFKD", ·)` (standard-library
behaviour, not repository code) covering the precomposed Latin letters with
diacritics that occur in Spanish clinical text; every character outside the
table is normalization-invariant.  Each entry decomposes to its base letter
followed by the combining mark (U+0300 grave, U+0301 acute, U+0302
circumflex, U+0303 tilde, U+0308 diaeresis, U+0327 cedilla). -/
def nfkdTable : List (Char × List Char) :=
  [ ('á', ['a', Char.ofNat 769]), ('à', ['a', Char.ofNat 768]),
    ('â', ['a', Char.ofNat 770]), ('ä', ['a', Char.ofNat 776]),
    ('ã', ['a', Char.ofNat 771]),
    ('é', ['e', Char.ofNat 769]), ('è', ['e', Char.ofNat 768]),
    ('ê', ['e', Char.ofNat 770]), ('ë', ['e', Char.ofNat 776]),
    ('í', ['i', Char.ofNat 769]), ('ì', ['i', Char.ofNat 768]),
    ('î', ['i', Char.ofNat 770]), ('ï', ['i', Char.ofNat 776]),
    ('ó', ['o', Char.ofNat 769]), ('ò', ['o', Char.ofNat 768]),
    ('ô', ['o', Char.ofNat 770]), ('ö', ['o', Char.ofNat 776]),
    ('õ', ['o', Char.ofNat 771]),
    ('ú', ['u', Char.ofNat 769]), ('ù', ['u', Char.ofNat 768]),
    ('û', ['u', Char.ofNat 770]), ('ü', ['u', Char.ofNat 776]),
    ('ñ', ['n', Char.ofNat 771]), ('ç', ['c', Char.ofNat 807]),
    ('Á', ['A', Char.ofNat 769]), ('À', ['A', Char.ofNat 768]),
    ('Â', ['A', Char.ofNat 770]), ('Ä', ['A', Char.ofNat 776]),
    ('Ã', ['A', Char.ofNat 771]),
    ('É', ['E', Char.ofNat 769]), ('È', ['E', Char.ofNat 768]),
    ('Ê', ['E', Char.ofNat 770]), ('Ë', ['E', Char.ofNat 776]),
    ('Í', ['I', Char.ofNat 769]), ('Ì', ['I', Char.ofNat 768]),
    ('Î', ['I', Char.ofNat 770]), ('Ï', ['I', Char.ofNat 776]),
    ('Ó', ['O', Char.ofNat 769]), ('Ò', ['O', Char.ofNat 768]),
    ('Ô', ['O', Char.ofNat 770]), ('Ö', ['O', Char.ofNat 776]),
    ('Õ', ['O', Char.ofNat 771]),
    ('Ú', ['U', Char.ofNat 769]), ('Ù', ['U', Char.ofNat 768]),
    ('Û', ['U', Char.ofNat 770]), ('Ü', ['U', Char.ofNat 776]),
    ('Ñ', ['N', Char.ofNat 771]), ('Ç', ['C', Char.ofNat 807]) ]

/-- NFKD decomposition of one character (identity outside the table). -/
def nfkdChar (c : Char) : List Char :=
  match nfkdTable.find? (fun p => p.1 == c) with
  | some p => p.2
  | none => [c]

/-- NFKD decomposition of a character list. -/
def nfkdList : List Char → List Char
  | [] => []
  | c :: cs => nfkdChar c ++ nfkdList cs

/-- `nfkd.encode("ascii", "ignore")`: keep exactly the code points below 128. -/
def asciiFoldList (l : List Char) : List Char :=
  (nfkdList l).filter fun c => decide (c.toNat ≤ 127)

/-- `to_ascii` (`src/main.py` lines 14–18): `None` yields `""`; otherwise the
text is NFKD-normalized and every non-ASCII code point is dropped. -/
def to_ascii : Option String → String
  | none => ""
  | some t => ⟨asciiFoldList t.data⟩

/-! ## Request model (`Paciente`, `src/main.py` lines 87–90) -/

/-- The pydantic request model: `edad: int`, `sintomas: str`,
`antecedentes: str | None = None`. -/
structure Paciente where
  edad : Int
  sintomas : String
  antecedentes : Option String
deriving DecidableEq, Repr

/-- A request body as seen by pydantic validation: each declared field is
either absent/of the wrong type (`none`) or present with the declared type.
`antecedentes` may additionally be JSON `null` (the inner `Option`). -/
structure RawBody where
  edad : Option Int
  sintomas : Option String
  antecedentes : Option (Option String)
deriving DecidableEq, Repr

/-- Pydantic validation of `Paciente`: `edad` must be an integer and
`sintomas` a string; `antecedentes` defaults to `null`.  No range constraint
is declared on `edad` in the source. -/
def validar_paciente (b : RawBody) : Option Paciente :=
  match b.edad, b.sintomas with
  | some e, some s => some ⟨e, s, b.antecedentes.getD none⟩
  | _, _ => none

/-! ## Age segmenter (`segmentar_paciente_lph`, `src/main.py` lines 96–110) -/

/-- Age segmentation for the cleft lip/palate pathway. -/
def segmentar_paciente_lph (edad : Int) : String :=
  if edad ≤ 1 then "lactante"
  else if 2 ≤ edad ∧ edad ≤ 5 then "primera_infancia"
  else if 6 ≤ edad ∧ edad ≤ 12 then "escolar"
  else if 13 ≤ edad ∧ edad ≤ 17 then "adolescente"
  else "adulto"

/-- Rank of a segment in increasing life-stage order (any non-segment string
is ranked last; used only on outputs of `segmentar_paciente_lph`). -/
def segIdx (s : String) : Nat :=
  if s = "lactante" then 0
  else if s = "primera_infancia" then 1
  else if s = "escolar" then 2
  else if s = "adolescente" then 3
  else 4

example : segmentar_paciente_lph 0 = "lactante" := by decide
example : segmentar_paciente_lph 5 = "primera_infancia" := by decide
example : segmentar_paciente_lph 12 = "escolar" := by decide
example : segmentar_paciente_lph 17 = "adolescente" := by decide
example : segmentar_paciente_lph 18 = "adulto" := by decide
example : to_ascii (some "niño") = "nino" := by decide
example : pyLower (to_ascii (some "CIRUGÍA")) = "cirugia" := by decide

/-! ## Symptom flag keyword lists (`src/main.py` lines 123–150) -/

def kw_postoperatorio : List String :=
  ["posoperatorio", "postoperatorio", "cirugia", "operacion"]

def kw_sangrado_importante : List String :=
  ["sangrado abundante", "sangra mucho", "sangrado profuso"]

def kw_fiebre_alta : List String :=
  ["fiebre alta", "mas de 38", "mas de 38.5"]

def kw_dificultad_respirar : List String :=
  ["dificultad para respirar", "ahogo", "falta de aire"]

def kw_dolor_intenso : List String :=
  ["dolor muy fuerte", "dolor intenso", "dolor que no cede"]

def kw_signos_infeccion_herida : List String :=
  ["enrojecimiento", "secrecion", "pus", "mal olor en la herida"]

def kw_problemas_alimentacion : List String :=
  ["no gana peso", "baja de peso", "dificultad para alimentarse",
   "tarda mucho en comer", "se atora", "sale leche por la nariz"]

def kw_problemas_habla : List String :=
  ["no se entiende", "habla nasal", "voz nasal", "rinolalia",
   "dificultad para hablar"]

def kw_signos_otitis : List String :=
  ["dolor de oido", "supuracion de oido", "otitis", "escucha poco",
   "baja audicion"]

def kw_impacto_emocional : List String :=
  ["triste", "rechazo", "burlas", "bullying", "no quiere salir", "verguenza"]

/-- All ten keyword lists, in source order. -/
def kw_all : List (List String) :=
  [kw_postoperatorio, kw_sangrado_importante, kw_fiebre_alta,
   kw_dificultad_respirar, kw_dolor_intenso, kw_signos_infeccion_herida,
   kw_problemas_alimentacion, kw_problemas_habla, kw_signos_otitis,
   kw_impacto_emocional]

/-- The per-flag extraction step of `generar_recomendacion_lph` (lines
118 and 123–150): the raw symptom text is ASCII-normalized and lower-cased,
and the flag is set iff some phrase of its keyword list occurs as a
substring. -/
def flagDe (texto : String) (ks : List String) : Bool :=
  containsAny (pyLower (to_ascii (some texto))) ks

/-! ## The five canned recommendation strings (`src/main.py` lines 152–185) -/

def rec_urgencia : String :=
  "Se sugiere que el paciente acuda de inmediato a un servicio de urgencias y contacte al equipo tratante, por posibles complicaciones posoperatorias relacionadas con labio y/o paladar fisurado."

def rec_alimentacion : String :=
  "Se recomienda priorizar valoracion presencial en corto plazo para revisar alimentacion, ganancia de peso y tecnica de alimentacion en contexto de labio y/o paladar fisurado, considerando apoyo de nutricion y terapia orofacial segun criterio del equipo clinico."

def rec_habla_audicion : String :=
  "Se recomienda programar valoracion interdisciplinaria (fonoaudiologia y otorrinolaringologia) para evaluar habla y audicion en un paciente con labio y/o paladar fisurado."

def rec_emocional : String :=
  "Se sugiere valoracion por psicologia o trabajo social para abordar impacto emocional, autoimagen y posibles situaciones de rechazo o bullying asociadas al labio y/o paladar fisurado."

def rec_seguimiento : String :=
  "Se recomienda control ambulatorio en el marco de la ruta integral de cuidado para labio y/o paladar fisurado, ajustando la prioridad segun criterio del equipo interdisciplinario."

/-! ## The rule engine (`generar_recomendacion_lph`, `src/main.py` 117–185) -/

/-- The triage rule engine, transcribed from the source: normalize the
texts, derive the segment and the ten flags, then return the first matching
rule's canned string. -/
def generar_recomendacion_lph (p : Paciente) : String :=
  let sintomas := pyLower (to_ascii (some p.sintomas))
  let antecedentes := pyLower (to_ascii (some (p.antecedentes.getD "")))
  let segmento := segmentar_paciente_lph p.edad
  let postoperatorio := containsAny sintomas kw_postoperatorio
  let sangrado_importante := containsAny sintomas kw_sangrado_importante
  let fiebre_alta := containsAny sintomas kw_fiebre_alta
  let dificultad_respirar := containsAny sintomas kw_dificultad_respirar
  let dolor_intenso := containsAny sintomas kw_dolor_intenso
  let signos_infeccion_herida := containsAny sintomas kw_signos_infeccion_herida
  let problemas_alimentacion := containsAny sintomas kw_problemas_alimentacion
  let problemas_habla := containsAny sintomas kw_problemas_habla
  let signos_otitis := containsAny sintomas kw_signos_otitis
  let impacto_emocional := containsAny sintomas kw_impacto_emocional
  if postoperatorio && (sangrado_importante || fiebre_alta ||
      dificultad_respirar || dolor_intenso || signos_infeccion_herida) then
    rec_urgencia
  else if segmento == "lactante" && problemas_alimentacion then
    rec_alimentacion
  else if (["primera_infancia", "escolar", "adolescente"].contains segmento) &&
      (problemas_habla || signos_otitis) then
    rec_habla_audicion
  else if (["adolescente", "adulto"].contains segmento) && impacto_emocional then
    rec_emocional
  else
    rec_seguimiento

/-- Condition of rule 1 (possible post-operative emergency). -/
def cond_urgencia (p : Paciente) : Bool :=
  let sintomas := pyLower (to_ascii (some p.sintomas))
  containsAny sintomas kw_postoperatorio &&
    (containsAny sintomas kw_sangrado_importante ||
     containsAny sintomas kw_fiebre_alta ||
     containsAny sintomas kw_dificultad_respirar ||
     containsAny sintomas kw_dolor_intenso ||
     containsAny sintomas kw_signos_infeccion_herida)

/-- Condition of rule 2 (infant with feeding problems). -/
def cond_alimentacion (p : Paciente) : Bool :=
  segmentar_paciente_lph p.edad == "lactante" &&
    containsAny (pyLower (to_ascii (some p.sintomas))) kw_problemas_alimentacion

/-- Condition of rule 3 (speech/hearing problems at school-age range). -/
def cond_habla_audicion (p : Paciente) : Bool :=
  (["primera_infancia", "escolar", "adolescente"].contains
      (segmentar_paciente_lph p.edad)) &&
    (containsAny (pyLower (to_ascii (some p.sintomas))) kw_problemas_habla ||
     containsAny (pyLower (to_ascii (some p.sintomas))) kw_signos_otitis)

/-- Condition of rule 4 (emotional impact in adolescents/adults). -/
def cond_emocional (p : Paciente) : Bool :=
  (["adolescente", "adulto"].contains (segmentar_paciente_lph p.edad)) &&
    containsAny (pyLower (to_ascii (some p.sintomas))) kw_impacto_emocional

/-! ## Collaborator model (`corregir_texto`, `refinar_recomendacion_tecnica`,
`recomendar`, `src/main.py` lines 42–81, 208–239, 245–271)

The only effect of `client.responses.create(...)` observable by this program
is its outcome: either it raises (transport failure, timeout, non-2xx raised
by the client library — none of which the source catches) or it returns a
response object, of which the source reads `output_text` (an attribute whose
access may itself raise, caught by the source) and `str(response)`.
`json.loads` is modelled by an oracle `String → Option Correccion`: `none`
is a parse failure, `some d` a successful parse into the expected shape. -/

/-- Outcome of a Python expression: a value, or a raised exception. -/
inductive PyRes (α : Type) where
  | ok : α → PyRes α
  | exn : PyRes α
deriving DecidableEq, Repr

/-- `true` iff the computation returned normally. -/
def PyRes.isOk {α : Type} : PyRes α → Bool
  | .ok _ => true
  | .exn => false

/-- The response object returned by a successful `responses.create` call:
`output_text` is `none` when accessing the attribute raises, and `as_str`
is `str(response)`. -/
structure RespObj where
  output_text : Option String
  as_str : String
deriving DecidableEq, Repr

/-- A parsed JSON value as returned by Python `json.loads`
(standard-library behaviour): an arbitrary JSON document, not necessarily
the three-key object the correction flow expects — the source never checks
the shape.  Numbers are modelled as integers; the distinction is irrelevant
to the string-keyed subscripting the endpoint performs. -/
inductive JVal where
  | str : String → JVal
  | num : Int → JVal
  | bool : Bool → JVal
  | null : JVal
  | arr : List JVal → JVal
  | obj : List (String × JVal) → JVal

/-- Python `value[key]` for a string key on a parsed JSON value, as the
endpoint does on `src/main.py` lines 268–270: succeeds only on an object
carrying the key; a missing key raises KeyError and a non-object value
raises TypeError, both modelled as `.exn`. -/
def jGet (v : JVal) (key : String) : PyRes JVal :=
  match v with
  | .obj kvs =>
      match kvs.find? (fun kv => kv.1 == key) with
      | some kv => .ok kv.2
      | none => .exn
  | _ => .exn

/-- Lines 60–63: `response.output_text`, falling back to `str(response)`
when the attribute access raises. -/
def rawOutput (resp : RespObj) : String :=
  resp.output_text.getD resp.as_str

/-- Lines 65–70: strip whitespace, remove the markdown code fences, strip
again. -/
def limpiar (raw_output : String) : String :=
  pyStrip (pyReplace (pyReplace (pyStrip raw_output) "```json" "") "```" "")

/-- Python truthiness test of line 43: `not texto or not texto.strip()`. -/
def textoVacio (texto : String) : Bool :=
  texto.data.isEmpty || (pyStrip texto).data.isEmpty

/-- `corregir_texto` (lines 42–81).  `create` is the outcome of the
`responses.create` call (made only when the text is non-blank) and
`jsonLoads` models `json.loads`: `none` is a parse failure, `some v` a
successful parse into an arbitrary JSON value `v`, which is returned
without any shape check (line 81).  The uncaught exception of a failing
`create` propagates as `.exn`. -/
def corregir_texto (texto : String) (create : PyRes RespObj)
    (jsonLoads : String → Option JVal) : PyRes JVal :=
  if textoVacio texto then
    .ok (.obj [("correccion", .str ""), ("sugerencia", .str ""),
      ("explicacion", .str "No se recibio texto para corregir.")])
  else
    match create with
    | .exn => .exn
    | .ok resp =>
        let texto_ascii := to_ascii (some texto)
        let raw_clean := limpiar (rawOutput resp)
        match jsonLoads raw_clean with
        | some data => .ok data
        | none =>
            .ok (.obj [("correccion", .str texto_ascii),
              ("sugerencia", .str texto_ascii),
              ("explicacion", .str "No se pudo parsear JSON")])

/-- `refinar_recomendacion_tecnica` (lines 208–239).  The prompt built from
`p` is sent to the collaborator but has no observable effect on this
program, so it is elided; only the outcome of the `responses.create` call
matters.  A raising `create` propagates; a missing `output_text` attribute
falls back to the base recommendation (lines 234–237). -/
def refinar_recomendacion_tecnica (p : Paciente) (recomendacion_base : String)
    (create : PyRes RespObj) : PyRes String :=
  match create with
  | .exn => .exn
  | .ok resp =>
      match resp.output_text with
      | some t => .ok (pyStrip t)
      | none => .ok recomendacion_base

/-- The response body assembled on lines 266–271.  The three correction
fields carry whatever JSON values the subscripts `correccion["..."]`
produced. -/
structure RespOut where
  recomendacion : String
  correccion : JVal
  sugerencia : JVal
  explicacion : JVal

/-- Default of the query parameter `usar_ia_en_recomendacion` (line 246). -/
def usar_ia_en_recomendacion_default : Bool := true

/-- The `/recomendar` endpoint (lines 245–271).  `refCreate` and
`corrCreate` are the outcomes of the two `responses.create` calls (the
rephrase one is only made when `usar_ia` is true; the correction one only
when the symptom text is non-blank).  The response assembly subscripts the
correction value with the three expected keys (lines 268–270), which
raises when the parsed payload is not an object carrying them.  Uncaught
exceptions propagate as `.exn` (FastAPI then answers 500). -/
def recomendar (p : Paciente) (usar_ia : Bool)
    (refCreate corrCreate : PyRes RespObj)
    (jsonLoads : String → Option JVal) : PyRes RespOut :=
  let recomendacion_base := generar_recomendacion_lph p
  match (if usar_ia then
           refinar_recomendacion_tecnica p recomendacion_base refCreate
         else .ok recomendacion_base) with
  | .exn => .exn
  | .ok recomendacion =>
      match corregir_texto p.sintomas corrCreate jsonLoads with
      | .exn => .exn
      | .ok correccion =>
          match jGet correccion "correccion" with
          | .exn => .exn
          | .ok c1 =>
              match jGet correccion "sugerencia" with
              | .exn => .exn
              | .ok c2 =>
                  match jGet correccion "explicacion" with
                  | .exn => .exn
                  | .ok c3 => .ok ⟨recomendacion, c1, c2, c3⟩

example :
    generar_recomendacion_lph ⟨0, "posoperatorio con sangrado abundante", none⟩
      = rec_urgencia := by decide
example :
    generar_recomendacion_lph ⟨1, "no gana peso y se atora al comer", none⟩
      = rec_alimentacion := by decide
example :
    generar_recomendacion_lph ⟨10, "habla nasal", none⟩
      = rec_habla_audicion := by decide
example :
    generar_recomendacion_lph ⟨16, "se siente triste por burlas", none⟩
      = rec_emocional := by decide
example :
    generar_recomendacion_lph ⟨30, "control de rutina", none⟩
      = rec_seguimiento := by decide

/-! ## Helper lemmas -/

theorem listPrefixOf_self_append (k b : List Char) :
    listPrefixOf k (k ++ b) = true := by
  induction k with
  | nil => rfl
  | cons a as ih => simp [listPrefixOf, ih]

theorem listSubstr_of_listPrefixOf (k hay : List Char)
    (h : listPrefixOf k hay = true) : listSubstr k hay = true := by
  cases hay with
  | nil => simpa [listSubstr] using h
  | cons c rest => simp [listSubstr, h]

theorem listSubstr_append_middle (k a b : List Char) :
    listSubstr k (a ++ (k ++ b)) = true := by
  induction a with
  | nil => exact listSubstr_of_listPrefixOf _ _ (listPrefixOf_self_append k b)
  | cons c rest ih => simp [listSubstr, ih]

theorem nfkdList_append (a b : List Char) :
    nfkdList (a ++ b) = nfkdList a ++ nfkdList b := by
  induction a with
  | nil => rfl
  | cons c cs ih => simp [nfkdList, ih]

theorem nfkdChar_ascii (c : Char) (h : c.toNat ≤ 127) : nfkdChar c = [c] := by
  have hfind : nfkdTable.find? (fun p => p.1 == c) = none := by
    rw [List.find?_eq_none]
    intro p hp hbeq
    have hkeys : ∀ q ∈ nfkdTable, 127 < q.1.toNat := by decide
    have hkey := hkeys p hp
    have hpc : p.1 = c := by simpa using hbeq
    have : p.1.toNat = c.toNat := congrArg Char.toNat hpc
    omega
  unfold nfkdChar
  rw [hfind]

theorem asciiFoldList_of_ascii (l : List Char)
    (h : ∀ c ∈ l, c.toNat ≤ 127) : asciiFoldList l = l := by
  induction l with
  | nil => rfl
  | cons c cs ih =>
      have hc := h c (List.mem_cons_self c cs)
      have ihh : (nfkdList cs).filter (fun c => decide (c.toNat ≤ 127)) = cs :=
        ih fun x hx => h x (List.mem_cons_of_mem c hx)
      simp [asciiFoldList, nfkdList, List.filter_append,
        nfkdChar_ascii c hc, hc, ihh]

theorem norm_data_append (u v : String) :
    (pyLower (to_ascii (some (u ++ v)))).data
      = (pyLower (to_ascii (some u))).data
        ++ (pyLower (to_ascii (some v))).data := by
  show (asciiFoldList (u ++ v).data).map pyLowerChar
      = (asciiFoldList u.data).map pyLowerChar
        ++ (asciiFoldList v.data).map pyLowerChar
  rw [String.data_append]
  unfold asciiFoldList
  rw [nfkdList_append, List.filter_append, List.map_append]

theorem generar_eq (p : Paciente) :
    generar_recomendacion_lph p =
      if cond_urgencia p then rec_urgencia
      else if cond_alimentacion p then rec_alimentacion
      else if cond_habla_audicion p then rec_habla_audicion
      else if cond_emocional p then rec_emocional
      else rec_seguimiento := rfl

theorem jGet_three_keys (a b c : JVal) :
    jGet (.obj [("correccion", a), ("sugerencia", b), ("explicacion", c)])
        "correccion" = .ok a ∧
    jGet (.obj [("correccion", a), ("sugerencia", b), ("explicacion", c)])
        "sugerencia" = .ok b ∧
    jGet (.obj [("correccion", a), ("sugerencia", b), ("explicacion", c)])
        "explicacion" = .ok c :=
  ⟨rfl, rfl, rfl⟩

theorem corregir_texto_obj_of_parse_none (texto : String) (r : RespObj)
    (jl : String → Option JVal) (h : jl (limpiar (rawOutput r)) = none) :
    ∃ a b c, corregir_texto texto (.ok r) jl
      = .ok (.obj [("correccion", .str a), ("sugerencia", .str b),
          ("explicacion", .str c)]) := by
  unfold corregir_texto
  split_ifs with hb
  · exact ⟨"", "", "No se recibio texto para corregir.", rfl⟩
  · refine ⟨to_ascii (some texto), to_ascii (some texto),
      "No se pudo parsear JSON", ?_⟩
    simp [h]

theorem corregir_texto_of_parse_some (texto : String) (r : RespObj)
    (jl : String → Option JVal) (v : JVal)
    (hb : textoVacio texto = false) (h : jl (limpiar (rawOutput r)) = some v) :
    corregir_texto texto (.ok r) jl = .ok v := by
  unfold corregir_texto
  rw [if_neg (by simp [hb])]
  simp [h]

theorem segIdx_segmentar (a : Int) :
    segIdx (segmentar_paciente_lph a)
      = if a ≤ 1 then 0 else if a ≤ 5 then 1 else if a ≤ 12 then 2
        else if a ≤ 17 then 3 else 4 := by
  unfold segmentar_paciente_lph segIdx
  split_ifs <;> first | rfl | omega | simp_all

/-! ## Claim theorems -/

/-- Claim C1: the triage rule engine `generar_recomendacion_lph` is total and
first-match ordered: every patient input yields one of the five canned
recommendation strings (never empty), the earliest rule whose condition
holds determines the output, and the default rule fires when none of the
four conditions hold. -/
theorem generar_recomendacion_lph_total_first_match (p : Paciente) :
    (generar_recomendacion_lph p = rec_urgencia ∨
     generar_recomendacion_lph p = rec_alimentacion ∨
     generar_recomendacion_lph p = rec_habla_audicion ∨
     generar_recomendacion_lph p = rec_emocional ∨
     generar_recomendacion_lph p = rec_seguimiento) ∧
    generar_recomendacion_lph p ≠ "" ∧
    (cond_urgencia p = true → generar_recomendacion_lph p = rec_urgencia) ∧
    (cond_urgencia p = false → cond_alimentacion p = true →
      generar_recomendacion_lph p = rec_alimentacion) ∧
    (cond_urgencia p = false → cond_alimentacion p = false →
      cond_habla_audicion p = true →
      generar_recomendacion_lph p = rec_habla_audicion) ∧
    (cond_urgencia p = false → cond_alimentacion p = false →
      cond_habla_audicion p = false → cond_emocional p = true →
      generar_recomendacion_lph p = rec_emocional) ∧
    (cond_urgencia p = false → cond_alimentacion p = false →
      cond_habla_audicion p = false → cond_emocional p = false →
      generar_recomendacion_lph p = rec_seguimiento) := by
  have hmem : generar_recomendacion_lph p = rec_urgencia ∨
      generar_recomendacion_lph p = rec_alimentacion ∨
      generar_recomendacion_lph p = rec_habla_audicion ∨
      generar_recomendacion_lph p = rec_emocional ∨
      generar_recomendacion_lph p = rec_seguimiento := by
    rw [generar_eq]
    split_ifs <;> simp
  have hne : generar_recomendacion_lph p ≠ "" := by
    rcases hmem with h | h | h | h | h <;> rw [h] <;> decide
  refine ⟨hmem, hne, ?_, ?_, ?_, ?_, ?_⟩ <;>
    intros <;> simp_all [generar_eq]

/-- Witness for C1 at an input satisfying both the priority-1 and the
priority-3 conditions: the priority-1 emergency string is returned. -/
theorem generar_recomendacion_lph_total_first_match_witness :
    cond_urgencia
      ⟨10, "Postoperatorio con sangrado abundante y habla nasal", none⟩ = true ∧
    cond_habla_audicion
      ⟨10, "Postoperatorio con sangrado abundante y habla nasal", none⟩ = true ∧
    generar_recomendacion_lph
      ⟨10, "Postoperatorio con sangrado abundante y habla nasal", none⟩
        = rec_urgencia :=
  ⟨by decide, by decide,
   (generar_recomendacion_lph_total_first_match
     ⟨10, "Postoperatorio con sangrado abundante y habla nasal", none⟩).2.2.1
     (by decide)⟩

/-- Claim C4: the age segmenter maps every age `a ≥ 0` to exactly one of the
five segments with closed-interval boundaries (`lactante` for `a ≤ 1`,
`primera_infancia` for 2–5, `escolar` for 6–12, `adolescente` for 13–17,
`adulto` from 18 on), exhaustively and monotonically. -/
theorem segmentar_paciente_lph_spec (a : Int) (ha : 0 ≤ a) :
    ((a ≤ 1 → segmentar_paciente_lph a = "lactante") ∧
     (2 ≤ a ∧ a ≤ 5 → segmentar_paciente_lph a = "primera_infancia") ∧
     (6 ≤ a ∧ a ≤ 12 → segmentar_paciente_lph a = "escolar") ∧
     (13 ≤ a ∧ a ≤ 17 → segmentar_paciente_lph a = "adolescente") ∧
     (18 ≤ a → segmentar_paciente_lph a = "adulto")) ∧
    (segmentar_paciente_lph a = "lactante" ∨
     segmentar_paciente_lph a = "primera_infancia" ∨
     segmentar_paciente_lph a = "escolar" ∨
     segmentar_paciente_lph a = "adolescente" ∨
     segmentar_paciente_lph a = "adulto") ∧
    (∀ b : Int, a ≤ b →
      segIdx (segmentar_paciente_lph a) ≤ segIdx (segmentar_paciente_lph b)) := by
  refine ⟨⟨?_, ?_, ?_, ?_, ?_⟩, ?_, ?_⟩
  · intro h
    unfold segmentar_paciente_lph
    split_ifs <;> first | rfl | (exfalso; omega)
  · intro h
    unfold segmentar_paciente_lph
    split_ifs <;> first | rfl | (exfalso; omega)
  · intro h
    unfold segmentar_paciente_lph
    split_ifs <;> first | rfl | (exfalso; omega)
  · intro h
    unfold segmentar_paciente_lph
    split_ifs <;> first | rfl | (exfalso; omega)
  · intro h
    unfold segmentar_paciente_lph
    split_ifs <;> first | rfl | (exfalso; omega)
  · unfold segmentar_paciente_lph
    split_ifs <;> simp
  · intro b hb
    rw [segIdx_segmentar, segIdx_segmentar]
    split_ifs <;> omega

/-- Witness for C4 at `a = 0` (with `b = 25` for monotonicity). -/
theorem segmentar_paciente_lph_spec_witness :
    segmentar_paciente_lph 0 = "lactante" ∧
    segIdx (segmentar_paciente_lph 0) ≤ segIdx (segmentar_paciente_lph 25) :=
  ⟨(segmentar_paciente_lph_spec 0 (by decide)).1.1 (by decide),
   (segmentar_paciente_lph_spec 0 (by decide)).2.2 25 (by decide)⟩

/-- Claim C6: the history field (`antecedentes`) has no influence on the
triage outcome: two inputs agreeing on age and symptoms get the same
recommendation string. -/
theorem generar_recomendacion_lph_ignores_antecedentes (p1 p2 : Paciente)
    (he : p1.edad = p2.edad) (hs : p1.sintomas = p2.sintomas) :
    generar_recomendacion_lph p1 = generar_recomendacion_lph p2 := by
  obtain ⟨e1, s1, a1⟩ := p1
  obtain ⟨e2, s2, a2⟩ := p2
  dsimp only at he hs
  subst he
  subst hs
  rfl

/-- Witness for C6: same age and symptoms, different history. -/
theorem generar_recomendacion_lph_ignores_antecedentes_witness :
    generar_recomendacion_lph ⟨7, "dolor de oido", none⟩
      = generar_recomendacion_lph ⟨7, "dolor de oido", some "asma y alergias"⟩ :=
  generar_recomendacion_lph_ignores_antecedentes _ _ rfl rfl

/-- Claim C7 counterexample: a request body whose `edad` is the negative
integer `-3` passes pydantic validation (the model declares `edad: int`
with no lower bound), contradicting the claim that such bodies are
rejected before processing. -/
theorem validar_paciente_accepts_negative_edad :
    validar_paciente ⟨some (-3), some "tos", none⟩
      = some ⟨-3, "tos", none⟩ := rfl

/-- Claim C7 (amended): the request model only checks that `edad` is an
integer and `sintomas` a string; every negative `edad` is accepted
unchanged, and the segmenter places every negative age in the `lactante`
segment. -/
theorem validar_paciente_no_lower_bound (e : Int) (s : String)
    (a : Option (Option String)) (h : e < 0) :
    validar_paciente ⟨some e, some s, a⟩ = some ⟨e, s, a.getD none⟩ ∧
    segmentar_paciente_lph e = "lactante" := by
  refine ⟨rfl, ?_⟩
  unfold segmentar_paciente_lph
  rw [if_pos (show e ≤ 1 by omega)]

/-- Witness for the amended C7 at `edad = -1`. -/
theorem validar_paciente_no_lower_bound_witness :
    validar_paciente ⟨some (-1), some "gripa", none⟩
        = some ⟨-1, "gripa", none⟩ ∧
    segmentar_paciente_lph (-1) = "lactante" :=
  validar_paciente_no_lower_bound (-1) "gripa" none (by decide)

/-- Claim C8: `to_ascii` is total: `None` yields the empty string, every
output code point is ASCII (diacritics are reduced to their base letter and
remaining non-ASCII code points dropped by the NFKD-then-filter pipeline),
and ASCII text passes through unchanged. -/
theorem to_ascii_spec :
    to_ascii none = "" ∧
    (∀ t : String, ∀ c ∈ (to_ascii (some t)).data, c.toNat ≤ 127) ∧
    (∀ t : String, (∀ c ∈ t.data, c.toNat ≤ 127) → to_ascii (some t) = t) := by
  refine ⟨rfl, ?_, ?_⟩
  · intro t c hc
    have hc' : c ∈ asciiFoldList t.data := hc
    have hdec := (List.mem_filter.mp hc').2
    simpa using hdec
  · intro t h
    show String.mk (asciiFoldList t.data) = t
    rw [asciiFoldList_of_ascii t.data h]

/-- Witness for C8: ASCII text is preserved (and hence ASCII-only). -/
theorem to_ascii_spec_witness :
    to_ascii (some "control de rutina") = "control de rutina" :=
  to_ascii_spec.2.2 "control de rutina" (by decide)

/-- Claim C5: flag extraction.  Positive direction: when the symptom text
contains, as a contiguous substring, any rendering of a phrase from a
flag's fixed keyword list — in any letter case, with or without diacritics,
i.e. any text that normalizes (diacritic folding then lower-casing) to the
phrase — that flag is set.  Negative direction: a text whose normalization
contains no phrase of any list yields all flags false. -/
theorem flagDe_keyword_spec :
    (∀ ks, ks ∈ kw_all → ∀ k, k ∈ ks → ∀ u v w : String,
      pyLower (to_ascii (some v)) = k → flagDe (u ++ v ++ w) ks = true) ∧
    (∀ texto : String,
      (∀ ks, ks ∈ kw_all → ∀ k, k ∈ ks →
        strIn k (pyLower (to_ascii (some texto))) = false) →
      ∀ ks, ks ∈ kw_all → flagDe texto ks = false) := by
  constructor
  · intro ks hks k hk u v w hv
    unfold flagDe containsAny
    apply List.any_eq_true.mpr
    refine ⟨k, hk, ?_⟩
    show listSubstr k.data (pyLower (to_ascii (some (u ++ v ++ w)))).data = true
    have hdata : (pyLower (to_ascii (some (u ++ v ++ w)))).data
        = (pyLower (to_ascii (some u))).data
          ++ ((pyLower (to_ascii (some v))).data
            ++ (pyLower (to_ascii (some w))).data) := by
      rw [norm_data_append (u ++ v) w, norm_data_append u v, List.append_assoc]
    rw [hdata, hv]
    exact listSubstr_append_middle k.data _ _
  · intro texto h ks hks
    unfold flagDe containsAny
    apply List.any_eq_false.mpr
    intro k hk
    simp [h ks hks k hk]

/-- Witness for C5: "CIRUGÍA" (upper case, with a diacritic) inside a longer
text sets the post-operative flag through the keyword "cirugia". -/
theorem flagDe_keyword_spec_witness :
    kw_postoperatorio ∈ kw_all ∧ "cirugia" ∈ kw_postoperatorio ∧
    flagDe ("tuvo " ++ "CIRUGÍA" ++ " ayer") kw_postoperatorio = true :=
  ⟨by decide, by decide,
   flagDe_keyword_spec.1 kw_postoperatorio (by decide) "cirugia" (by decide)
     "tuvo " "CIRUGÍA" " ayer" (by decide)⟩

/-- Claim C9: for blank symptom text (empty or whitespace-only) the
correction flow returns the fixed empty-correction value; the result is
independent of the collaborator parameters — it holds even when the
collaborator call would raise — so the collaborator is not consulted. -/
theorem corregir_texto_blank (texto : String) (create : PyRes RespObj)
    (jl : String → Option JVal) (h : textoVacio texto = true) :
    corregir_texto texto create jl
      = .ok (.obj [("correccion", .str ""), ("sugerencia", .str ""),
          ("explicacion", .str "No se recibio texto para corregir.")]) := by
  unfold corregir_texto
  rw [if_pos h]

/-- Witness for C9 on whitespace-only text with a raising collaborator. -/
theorem corregir_texto_blank_witness :
    corregir_texto "   " PyRes.exn (fun _ => none)
      = .ok (.obj [("correccion", .str ""), ("sugerencia", .str ""),
          ("explicacion", .str "No se recibio texto para corregir.")]) :=
  corregir_texto_blank "   " PyRes.exn (fun _ => none) (by decide)

/-- Claim C3 counterexample: with symptom text "niño" and an unparsable
collaborator reply, the fallback fields hold the ASCII-folded text "nino",
not the originally submitted text "niño". -/
theorem corregir_texto_fallback_counterexample :
    corregir_texto "niño" (.ok ⟨some "respuesta que no es json", "obj"⟩)
        (fun _ => none)
      = .ok (.obj [("correccion", .str "nino"), ("sugerencia", .str "nino"),
          ("explicacion", .str "No se pudo parsear JSON")]) ∧
    (("nino" : String) == "niño") = false := by
  constructor
  · rfl
  · decide

/-- Claim C3 (amended): when the collaborator's reply cannot be parsed as
JSON after stripping the markdown fences, `corregir_texto` returns a value
whose `correccion` and `sugerencia` fields both equal the ASCII-normalized
form `to_ascii` of the submitted text (which coincides with the original
exactly when the original is pure ASCII), with the fixed explanatory
note. -/
theorem corregir_texto_parse_fallback (texto : String) (resp : RespObj)
    (jl : String → Option JVal) (hne : textoVacio texto = false)
    (hparse : jl (limpiar (rawOutput resp)) = none) :
    corregir_texto texto (.ok resp) jl
      = .ok (.obj [("correccion", .str (to_ascii (some texto))),
          ("sugerencia", .str (to_ascii (some texto))),
          ("explicacion", .str "No se pudo parsear JSON")]) := by
  unfold corregir_texto
  rw [if_neg (by simp [hne])]
  simp [hparse]

/-- Witness for the amended C3. -/
theorem corregir_texto_parse_fallback_witness :
    corregir_texto "hola doctor" (.ok ⟨some "sin json", "obj"⟩) (fun _ => none)
      = .ok (.obj [("correccion", .str (to_ascii (some "hola doctor"))),
          ("sugerencia", .str (to_ascii (some "hola doctor"))),
          ("explicacion", .str "No se pudo parsear JSON")]) :=
  corregir_texto_parse_fallback "hola doctor" ⟨some "sin json", "obj"⟩
    (fun _ => none) (by decide) rfl

/-- Claim C2 counterexample: a transport failure (raised exception) in the
rephrase call is not recovered by the endpoint: the exception propagates
instead of producing a successful response. -/
theorem recomendar_transport_failure_counterexample :
    recomendar ⟨3, "tos leve", none⟩ true PyRes.exn
        (.ok ⟨some "texto", "obj"⟩) (fun _ => none)
      = PyRes.exn := rfl

/-- Claim C2 (amended): among collaborator failures, exactly the
payload-parse level is recovered.  (1) When both `responses.create` calls
return a response object and the correction reply cannot be parsed as
JSON, the endpoint still answers successfully with the fallback values.
(2) An exception raised by the rephrase transport call itself propagates
out of the endpoint.  (3) A correction reply that parses as JSON but is
not an object carrying the expected key makes the response assembly's
subscript raise, which also propagates out of the endpoint. -/
theorem recomendar_collab_failure_handling (p : Paciente) (usar : Bool)
    (r1 r2 : RespObj) (c : PyRes RespObj) (v : JVal)
    (jl : String → Option JVal) :
    (jl (limpiar (rawOutput r2)) = none →
      (recomendar p usar (.ok r1) (.ok r2) jl).isOk = true) ∧
    recomendar p true PyRes.exn c jl = PyRes.exn ∧
    (textoVacio p.sintomas = false →
      jl (limpiar (rawOutput r2)) = some v →
      jGet v "correccion" = PyRes.exn →
      recomendar p usar (.ok r1) (.ok r2) jl = PyRes.exn) := by
  refine ⟨?_, rfl, ?_⟩
  · intro hnone
    obtain ⟨a, b, cc, hd⟩ :=
      corregir_texto_obj_of_parse_none p.sintomas r2 jl hnone
    have hj := jGet_three_keys (JVal.str a) (JVal.str b) (JVal.str cc)
    unfold recomendar
    cases usar
    · simp [hd, hj.1, hj.2.1, hj.2.2, PyRes.isOk]
    · unfold refinar_recomendacion_tecnica
      cases ho : r1.output_text <;>
        simp [ho, hd, hj.1, hj.2.1, hj.2.2, PyRes.isOk]
  · intro hnb hv hg
    have hd := corregir_texto_of_parse_some p.sintomas r2 jl v hnb hv
    unfold recomendar
    cases usar
    · simp [hd, hg]
    · unfold refinar_recomendacion_tecnica
      cases ho : r1.output_text <;> simp [ho, hd, hg]

/-- Witness for the amended C2: a concrete unparsable reply is recovered
(successful response), while a concrete reply parsing to the JSON number 42
makes the endpoint raise. -/
theorem recomendar_collab_failure_handling_witness :
    (recomendar ⟨3, "tos leve", none⟩ false (.ok ⟨some "texto", "obj"⟩)
        (.ok ⟨some "sin json", "obj"⟩) (fun _ => none)).isOk = true ∧
    recomendar ⟨3, "tos leve", none⟩ false (.ok ⟨some "texto", "obj"⟩)
        (.ok ⟨some "42", "obj"⟩) (fun _ => some (.num 42)) = PyRes.exn :=
  ⟨(recomendar_collab_failure_handling ⟨3, "tos leve", none⟩ false
      ⟨some "texto", "obj"⟩ ⟨some "sin json", "obj"⟩ PyRes.exn (JVal.num 42)
      (fun _ => none)).1 rfl,
   (recomendar_collab_failure_handling ⟨3, "tos leve", none⟩ false
      ⟨some "texto", "obj"⟩ ⟨some "42", "obj"⟩ PyRes.exn (JVal.num 42)
      (fun _ => some (.num 42))).2.2 (by decide) rfl rfl⟩

/-- Claim C10: with `usar_ia_en_recomendacion = false` the endpoint's
`recomendacion` field is exactly the rule engine's output and the rephrase
collaborator is never consulted (the response is unchanged whatever that
call's outcome, including a raising one); the flag's declared default is
`true`. -/
theorem recomendar_sin_ia (p : Paciente) (refC refC' corrC : PyRes RespObj)
    (jl : String → Option JVal) :
    usar_ia_en_recomendacion_default = true ∧
    recomendar p false refC corrC jl = recomendar p false refC' corrC jl ∧
    (∀ out, recomendar p false refC corrC jl = .ok out →
      out.recomendacion = generar_recomendacion_lph p) := by
  refine ⟨rfl, rfl, ?_⟩
  intro out hout
  unfold recomendar at hout
  cases hc : corregir_texto p.sintomas corrC jl with
  | exn => simp [hc] at hout
  | ok d =>
      simp [hc] at hout
      cases h1 : jGet d "correccion" with
      | exn => simp [h1] at hout
      | ok c1 =>
          cases h2 : jGet d "sugerencia" with
          | exn => simp [h1, h2] at hout
          | ok c2 =>
              cases h3 : jGet d "explicacion" with
              | exn => simp [h1, h2, h3] at hout
              | ok c3 =>
                  simp [h1, h2, h3] at hout
                  rw [← hout]

/-- Witness for C10: the rule engine's default string is the response's
`recomendacion` field when the flag is off. -/
theorem recomendar_sin_ia_witness :
    (⟨rec_seguimiento, .str "control de rutina", .str "control de rutina",
        .str "No se pudo parsear JSON"⟩ : RespOut).recomendacion
      = generar_recomendacion_lph ⟨30, "control de rutina", none⟩ :=
  (recomendar_sin_ia ⟨30, "control de rutina", none⟩ PyRes.exn PyRes.exn
      (.ok ⟨some "x", "obj"⟩) (fun _ => none)).2.2
    ⟨rec_seguimiento, .str "control de rutina", .str "control de rutina",
      .str "No se pudo parsear JSON"⟩ (by rfl)
